import Mathlib

/-!
Shallow embedding of the aurora-mcp server (src/main.rs, src/aurora_server.rs,
src/sse_server.rs) and verification of the frozen claims against it.

Modelling conventions:
- JSON values (serde_json::Value) are modelled by `Json`.  serde_json's object
  type is a key-sorted map (BTreeMap), so objects built by the `json!` macro
  are listed here with their fields in ascending key order, the order in which
  serde_json stores and prints them.
- The only ambient state a tool handler reads is the wall clock
  (`chrono::Utc::now().to_rfc3339()`); every handler is therefore modelled as a
  function of a `now : String` argument carrying that clock reading, next to
  its declared arguments.  Handlers that never read the clock ignore it.
- Rust `u16`/`usize` become `Nat`; fallible operations return `Option`/`Except`.
-/

/-- JSON values, as in serde_json: null, booleans, numbers, strings, arrays and
objects.  All numbers occurring in this codebase are integers. -/
inductive Json where
  | null : Json
  | bool : Bool → Json
  | num : Int → Json
  | str : String → Json
  | arr : List Json → Json
  | obj : List (String × Json) → Json

/-- Field lookup on a JSON object (first binding wins; non-objects have no
fields). -/
def Json.lookup (j : Json) (k : String) : Option Json :=
  match j with
  | .obj fs => List.lookup k fs
  | _ => none

/-- Escape one character for inclusion in a JSON string literal, as
serde_json's serializer does for the characters occurring in this codebase. -/
def escapeChar (c : Char) : String :=
  if c = '"' then "\\\""
  else if c = '\\' then "\\\\"
  else if c = '\n' then "\\n"
  else if c = '\t' then "\\t"
  else if c = '\r' then "\\r"
  else String.singleton c

/-- Escape a string for inclusion in a JSON document. -/
def escapeString (s : String) : String :=
  String.join (s.data.map escapeChar)

mutual

/-- Render a JSON value to its serde_json `to_string` form (objects are
already key-sorted, see module conventions). -/
def renderJson : Json → String
  | .null => "null"
  | .bool true => "true"
  | .bool false => "false"
  | .num n => toString n
  | .str s => "\"" ++ escapeString s ++ "\""
  | .arr xs => "[" ++ renderList xs ++ "]"
  | .obj fs => "\x7b" ++ renderFields fs ++ "\x7d"

/-- Render array elements, comma-separated. -/
def renderList : List Json → String
  | [] => ""
  | [x] => renderJson x
  | x :: xs => renderJson x ++ "," ++ renderList xs

/-- Render object fields, comma-separated. -/
def renderFields : List (String × Json) → String
  | [] => ""
  | [(k, v)] => "\"" ++ escapeString k ++ "\":" ++ renderJson v
  | (k, v) :: fs => "\"" ++ escapeString k ++ "\":" ++ renderJson v ++ "," ++ renderFields fs

end

/-- The Cargo package version (`env!("CARGO_PKG_VERSION")`).  Cargo.toml is not
under src/; the value matches the "version": "0.1.0" strings hard-coded in
src/aurora_server.rs. -/
def CARGO_PKG_VERSION : String := "0.1.0"

/-- rmcp's CallToolResult as used by this server: a list of text contents plus
the is_error flag (`CallToolResult::success` sets it to false,
`CallToolResult::error` to true). -/
structure CallToolResult where
  content : List String
  isError : Bool
deriving DecidableEq

/-- CallToolResult::success. -/
def CallToolResult.success (c : List String) : CallToolResult := ⟨c, false⟩

/-- CallToolResult::error. -/
def CallToolResult.error (c : List String) : CallToolResult := ⟨c, true⟩

/-- src/aurora_server.rs `BatchGreetingRequest`.  The Rust field `prefix` is
renamed `pfx` here because `prefix` is a Lean keyword; all other field names
are kept. -/
structure BatchGreetingRequest where
  names : List String
  pfx : Option String
  include_numbers : Option Bool
  as_json : Option Bool
deriving DecidableEq

/-- src/aurora_server.rs `hello_world`: returns a fixed greeting (ignores the
clock). -/
def hello_world (_now : String) : CallToolResult :=
  CallToolResult.success ["Hello, World! from Aurora OS MCP Server 🌟"]

/-- src/aurora_server.rs `get_usa_president`: returns a fixed string (ignores
the clock). -/
def get_usa_president (_now : String) : CallToolResult :=
  CallToolResult.success ["В 2025 году президентом США является Дональд Трамп или Агент Краснов"]

/-- The `json!` object built by src/aurora_server.rs `get_server_info`
(fields in serde_json's sorted key order). -/
def serverInfoJson : Json :=
  .obj
    [ ("capabilities", .arr [.str "tools", .str "stdio transport", .str "http transport", .str "sse transport"])
    , ("description", .str "A demonstration MCP server for Aurora OS integration")
    , ("platform", .str "Aurora OS")
    , ("protocol_version", .str "2024-11-05")
    , ("server", .str "Aurora OS MCP Demo Server")
    , ("tools", .arr
        [ .str "hello_world() - Returns a greeting message from Aurora OS"
        , .str "get_usa_president() - Return current usa president"
        , .str "get_server_info() - Returns detailed server information"
        , .str "health_check() - Returns server health status"
        , .str "batch_greeting() - Generate personalized greetings for multiple names"
        ])
    , ("transports", .arr [.str "stdio", .str "http", .str "sse"])
    , ("version", .str "0.1.0")
    ]

/-- src/aurora_server.rs `get_server_info` (ignores the clock). -/
def get_server_info (_now : String) : CallToolResult :=
  CallToolResult.success [renderJson serverInfoJson]

/-- The `json!` object built by src/aurora_server.rs `health_check` at clock
reading `now` (fields in serde_json's sorted key order): status "healthy",
the rfc3339 timestamp, uptime_seconds hard-coded 0, tools_available
hard-coded 4. -/
def healthCheckJson (now : String) : Json :=
  .obj
    [ ("server", .str "Aurora OS MCP Demo Server")
    , ("status", .str "healthy")
    , ("timestamp", .str now)
    , ("tools_available", .num 4)
    , ("transport_mode", .str "multi-mode (stdio/http/sse)")
    , ("uptime_seconds", .num 0)
    , ("version", .str "0.1.0")
    ]

/-- src/aurora_server.rs `health_check` tool: reads the clock for its
timestamp field. -/
def health_check (now : String) : CallToolResult :=
  CallToolResult.success [renderJson (healthCheckJson now)]

/-- One greeting line of `batch_greeting`: the loop body builds
`format!("{}. {}", i+1, prefix)` when numbering is on (i is the 0-based
enumerate index), else the prefix, then pushes ", ", the name, and '!'. -/
def greetingLine (include_numbers : Bool) (pfx : String) (i : Nat) (name : String) : String :=
  (if include_numbers then toString (i + 1) ++ ". " ++ pfx else pfx) ++ ", " ++ name ++ "!"

/-- The `for (i, name) in names.iter().enumerate()` loop of `batch_greeting`,
started at index `i`. -/
def batchGreetingLines (pfx : String) (include_numbers : Bool) : Nat → List String → List String
  | _, [] => []
  | i, n :: rest => greetingLine include_numbers pfx i n :: batchGreetingLines pfx include_numbers (i + 1) rest

/-- The `json!` result object of `batch_greeting` when as_json is true
(fields in serde_json's sorted key order); "count" is `greetings.len()`. -/
def batchGreetingJson (greetings : List String) (pfx : String) (include_numbers : Bool) : Json :=
  .obj
    [ ("count", .num greetings.length)
    , ("greetings", .arr (greetings.map Json.str))
    , ("include_numbers", .bool include_numbers)
    , ("prefix", .str pfx)
    ]

/-- src/aurora_server.rs `batch_greeting` (ignores the clock): empty `names`
yields an error result; otherwise defaults are applied (prefix "Hello",
include_numbers false, as_json false), greetings are generated, and the output
is either the JSON object rendered to text or the lines joined by newlines. -/
def batch_greeting (_now : String) (r : BatchGreetingRequest) : CallToolResult :=
  if r.names.isEmpty then
    CallToolResult.error ["Error: At least one name must be provided"]
  else
    let pfx := r.pfx.getD "Hello"
    let include_numbers := r.include_numbers.getD false
    let as_json := r.as_json.getD false
    let greetings := batchGreetingLines pfx include_numbers 0 r.names
    let result :=
      if as_json then renderJson (batchGreetingJson greetings pfx include_numbers)
      else String.intercalate "\n" greetings
    CallToolResult.success [result]

/-- The tool names registered by the `#[tool_router]` macro on
src/aurora_server.rs `impl AuroraServer`, in declaration order: one entry per
`#[tool]`-attributed method.  The router is built once inside
`AuroraServer::new` and the struct offers no mutating method afterwards. -/
def registeredToolNames : List String :=
  ["hello_world", "get_usa_president", "get_server_info", "health_check", "batch_greeting"]

/-- src/main.rs `TransportMode`: the clap ValueEnum has exactly two variants,
Stdio and Http (src/sse_server.rs exists but is not part of the module tree:
main.rs declares only `mod aurora_server`, and no CLI variant selects it). -/
inductive TransportMode where
  | stdio : TransportMode
  | http : TransportMode
deriving DecidableEq

/-- clap's ValueEnum value parsing for `TransportMode`: the accepted value
strings are the kebab-cased variant names "stdio" and "http" (case-sensitive,
clap's default). -/
def parseTransportMode (s : String) : Option TransportMode :=
  if s = "stdio" then some .stdio
  else if s = "http" then some .http
  else none

/-- src/main.rs `Args` after parsing, with clap's declared defaults already
applied (transport stdio, host "127.0.0.1", port 3000, cors off,
log level "info").  `port` is a u16. -/
structure Args where
  transport : TransportMode
  host : String
  port : Nat
  cors : Bool
  log_level : String
deriving DecidableEq

/-- Accumulator for clap's scan over the command line: each option is
set-once (clap 4 errors on a repeated occurrence of these arguments). -/
structure ArgsBuilder where
  transport : Option TransportMode := none
  host : Option String := none
  port : Option Nat := none
  cors : Option Bool := none
  log_level : Option String := none

/-- Numeric value of a decimal digit character, if it is one. -/
def digitVal (c : Char) : Option Nat :=
  if c = '0' then some 0 else if c = '1' then some 1 else if c = '2' then some 2
  else if c = '3' then some 3 else if c = '4' then some 4 else if c = '5' then some 5
  else if c = '6' then some 6 else if c = '7' then some 7 else if c = '8' then some 8
  else if c = '9' then some 9 else none

/-- Accumulate the decimal value of a digit sequence. -/
def parseNatChars : List Char → Nat → Option Nat
  | [], acc => some acc
  | c :: rest, acc =>
    match digitVal c with
    | some d => parseNatChars rest (acc * 10 + d)
    | none => none

/-- clap's value parser for the u16 `port` option (Rust's `u16::from_str` on
the decimal digit strings used here): a non-empty digit string whose value
fits in a u16. -/
def parseU16 (s : String) : Option Nat :=
  match s.data with
  | [] => none
  | cs =>
    match parseNatChars cs 0 with
    | some n => if n ≤ 65535 then some n else none
    | none => none

/-- clap's scan over the argument tokens of src/main.rs `Args` (the
space-separated `--flag value` form used in the claims): recognises
--transport (-t), --host (-H), --port (-p), --cors, --log-level (-l); any other
token — an unknown flag or a stray positional such as `serve` (the CLI
declares no subcommand and no positional argument) — is a parse error, as is
a missing or invalid option value or a repeated option. -/
def parseArgsFrom : List String → ArgsBuilder → Option ArgsBuilder
  | [], b => some b
  | a :: rest, b =>
    if a = "--transport" ∨ a = "-t" then
      match b.transport, rest with
      | some _, _ => none
      | none, [] => none
      | none, v :: rest2 =>
        match parseTransportMode v with
        | some m => parseArgsFrom rest2 { b with transport := some m }
        | none => none
    else if a = "--host" ∨ a = "-H" then
      match b.host, rest with
      | some _, _ => none
      | none, [] => none
      | none, v :: rest2 => parseArgsFrom rest2 { b with host := some v }
    else if a = "--port" ∨ a = "-p" then
      match b.port, rest with
      | some _, _ => none
      | none, [] => none
      | none, v :: rest2 =>
        match parseU16 v with
        | some n => parseArgsFrom rest2 { b with port := some n }
        | none => none
    else if a = "--cors" then
      match b.cors with
      | some _ => none
      | none => parseArgsFrom rest { b with cors := some true }
    else if a = "--log-level" ∨ a = "-l" then
      match b.log_level, rest with
      | some _, _ => none
      | none, [] => none
      | none, v :: rest2 => parseArgsFrom rest2 { b with log_level := some v }
    else none

/-- `Args::parse()` on the argument vector (program name excluded): scan the
tokens, then apply the declared defaults. -/
def parseArgs (argv : List String) : Option Args :=
  (parseArgsFrom argv {}).map fun b =>
    { transport := b.transport.getD .stdio
    , host := b.host.getD "127.0.0.1"
    , port := b.port.getD 3000
    , cors := b.cors.getD false
    , log_level := b.log_level.getD "info" }

/-- An HTTP response as produced by an axum handler: status code plus JSON
body. -/
structure HttpResponse where
  status : Nat
  body : Json

/-- axum's IntoResponse for `Json(value)`: status 200 with the value as
body. -/
def axumJsonResponse (v : Json) : HttpResponse := ⟨200, v⟩

/-- src/main.rs `health_check_handler` (HTTP transport, routed at
GET /health): returns `Json(json!({...}))` with status "healthy" (fields in
serde_json's sorted key order). -/
def health_check_handler (now : String) : HttpResponse :=
  axumJsonResponse (.obj
    [ ("endpoints", .obj [("health", .str "/health"), ("mcp", .str "/mcp")])
    , ("server", .str "Aurora OS MCP Demo Server")
    , ("status", .str "healthy")
    , ("timestamp", .str now)
    , ("transport_mode", .str "http")
    , ("version", .str CARGO_PKG_VERSION)
    ])

/-- src/sse_server.rs `sse_health_check` (SSE transport, routed at
GET /health): returns `Json(json!({...}))` with status "healthy" (fields in
serde_json's sorted key order). -/
def sse_health_check (now : String) : HttpResponse :=
  axumJsonResponse (.obj
    [ ("endpoints", .obj [("health", .str "/health"), ("message", .str "/message"), ("sse", .str "/sse")])
    , ("server", .str "Aurora OS MCP Demo Server")
    , ("status", .str "healthy")
    , ("timestamp", .str now)
    , ("transport_mode", .str "sse")
    , ("version", .str CARGO_PKG_VERSION)
    ])

/-- Outcomes of the I/O steps src/main.rs `main` performs, supplied by the
environment: whether "host:port" parses as a SocketAddr, whether binding the
TCP listener succeeds, and whether the stdio service starts and then waits to
completion without error. -/
structure NetEnv where
  addrParses : Bool
  bindSucceeds : Bool
  stdioServeOk : Bool
  stdioWaitOk : Bool
deriving DecidableEq

/-- Control flow of src/main.rs `main`, as the process exit code (anyhow's
main: `Ok(())` exits 0, `Err` exits 1).  Stdio: a serve or waiting error is
propagated with `?`.  Http: an unparsable address or a failed bind is
propagated with `?`; after a successful bind the axum serve result is
discarded (`let _ =`), so graceful shutdown reaches `Ok(())`. -/
def mainExitCode : TransportMode → NetEnv → Nat
  | .stdio, env => if env.stdioServeOk then (if env.stdioWaitOk then 0 else 1) else 1
  | .http, env => if env.addrParses then (if env.bindSucceeds then 0 else 1) else 1

/-- Errors of serde's derived deserializer for `BatchGreetingRequest`
(rmcp's Parameters wrapper runs this deserializer and maps any failure into
an invalid-params error without calling the tool method). -/
inductive DeErr where
  | missingField : String → DeErr
  | invalidType : String → String → DeErr
  | duplicateField : String → DeErr
deriving DecidableEq

/-- serde's error message for each failure (invalid-type messages describe
the unexpected value and the expected type; only missing-field and
duplicate-field messages carry a field name). -/
def DeErr.message : DeErr → String
  | .missingField n => "missing field `" ++ n ++ "`"
  | .invalidType d e => "invalid type: " ++ d ++ ", expected " ++ e
  | .duplicateField n => "duplicate field `" ++ n ++ "`"

/-- serde's description of an unexpected JSON value inside an invalid-type
message. -/
def describeJson : Json → String
  | .null => "null"
  | .bool true => "boolean `true`"
  | .bool false => "boolean `false`"
  | .num n => "integer `" ++ toString n ++ "`"
  | .str s => "string \"" ++ s ++ "\""
  | .arr _ => "sequence"
  | .obj _ => "map"

/-- Deserialize a JSON array's elements as Rust `Vec<String>` elements. -/
def parseStringList : List Json → Except DeErr (List String)
  | [] => .ok []
  | .str s :: rest => (parseStringList rest).map (s :: ·)
  | j :: _ => .error (.invalidType (describeJson j) "a string")

/-- Deserialize `names: Vec<String>`. -/
def parseNamesField : Json → Except DeErr (List String)
  | .arr xs => parseStringList xs
  | j => .error (.invalidType (describeJson j) "a sequence")

/-- Deserialize `Option<String>` (null and absent both give None). -/
def parseOptStringField : Json → Except DeErr (Option String)
  | .null => .ok none
  | .str s => .ok (some s)
  | j => .error (.invalidType (describeJson j) "a string")

/-- Deserialize `Option<bool>`. -/
def parseOptBoolField : Json → Except DeErr (Option Bool)
  | .null => .ok none
  | .bool b => .ok (some b)
  | j => .error (.invalidType (describeJson j) "a boolean")

/-- Accumulator of serde's visit over the request object's entries: each
declared field is recorded at most once. -/
structure BGRBuilder where
  names : Option (List String) := none
  pfx : Option (Option String) := none
  include_numbers : Option (Option Bool) := none
  as_json : Option (Option Bool) := none

/-- serde's visit over the entries of the request object, in input order: a
known key's value is deserialized at its declared type (the first failure
aborts), a repeated known key is a duplicate-field error, and unknown keys
are ignored (the struct does not opt into deny_unknown_fields). -/
def visitBGRFields : List (String × Json) → BGRBuilder → Except DeErr BGRBuilder
  | [], b => .ok b
  | (k, v) :: rest, b =>
    if k = "names" then
      match b.names with
      | some _ => .error (.duplicateField "names")
      | none =>
        match parseNamesField v with
        | .error e => .error e
        | .ok ns => visitBGRFields rest { b with names := some ns }
    else if k = "prefix" then
      match b.pfx with
      | some _ => .error (.duplicateField "prefix")
      | none =>
        match parseOptStringField v with
        | .error e => .error e
        | .ok s => visitBGRFields rest { b with pfx := some s }
    else if k = "include_numbers" then
      match b.include_numbers with
      | some _ => .error (.duplicateField "include_numbers")
      | none =>
        match parseOptBoolField v with
        | .error e => .error e
        | .ok x => visitBGRFields rest { b with include_numbers := some x }
    else if k = "as_json" then
      match b.as_json with
      | some _ => .error (.duplicateField "as_json")
      | none =>
        match parseOptBoolField v with
        | .error e => .error e
        | .ok x => visitBGRFields rest { b with as_json := some x }
    else visitBGRFields rest b

/-- serde's derived `Deserialize` for `BatchGreetingRequest` on a JSON value:
a non-object is an invalid-type error; after visiting all entries, a missing
required `names` is a missing-field error, while the absent optional fields
default to None. -/
def deserializeBGR : Json → Except DeErr BatchGreetingRequest
  | .obj fs =>
    match visitBGRFields fs {} with
    | .error e => .error e
    | .ok b =>
      match b.names with
      | none => .error (.missingField "names")
      | some ns =>
        .ok { names := ns, pfx := b.pfx.getD none
            , include_numbers := b.include_numbers.getD none
            , as_json := b.as_json.getD none }
  | j => .error (.invalidType (describeJson j) "struct BatchGreetingRequest")

/-- Dispatch of a batch_greeting call as rmcp's Parameters wrapper performs
it: deserialize the arguments; on failure return the validation error without
invoking the tool method, otherwise run `batch_greeting` on the decoded
request. -/
def callBatchGreeting (now : String) (args : Json) : Except DeErr CallToolResult :=
  match deserializeBGR args with
  | .error e => .error e
  | .ok r => .ok (batch_greeting now r)

/-- Whether `sub` occurs at the start of `l`. -/
def charsLeadWith : List Char → List Char → Bool
  | [], _ => true
  | _ :: _, [] => false
  | a :: as, b :: bs => a == b && charsLeadWith as bs

/-- Whether `sub` occurs contiguously anywhere in `l`. -/
def charsContain (sub : List Char) : List Char → Bool
  | [] => charsLeadWith sub []
  | c :: rest => charsLeadWith sub (c :: rest) || charsContain sub rest

/-- Whether the string `sub` occurs as a contiguous substring of `s`; used to
state that an error message names a field. -/
def strContainsB (s sub : String) : Bool :=
  charsContain sub.data s.data

theorem batchGreetingLines_length (pfx : String) (inc : Bool) :
    ∀ (ns : List String) (i : Nat), (batchGreetingLines pfx inc i ns).length = ns.length := by
  intro ns
  induction ns with
  | nil => intro i; rfl
  | cons n rest ih => intro i; simp [batchGreetingLines, ih]

theorem batchGreetingLines_getD (pfx : String) (inc : Bool) :
    ∀ (ns : List String) (i j : Nat), j < ns.length →
      (batchGreetingLines pfx inc i ns).getD j "" = greetingLine inc pfx (i + j) (ns.getD j "") := by
  intro ns
  induction ns with
  | nil => intro i j h; simp at h
  | cons n rest ih =>
    intro i j h
    cases j with
    | zero => simp [batchGreetingLines]
    | succ k =>
      have hk : k < rest.length := by simpa using h
      simp only [batchGreetingLines, List.getD_cons_succ]
      rw [ih (i + 1) k hk]
      have : i + 1 + k = i + (k + 1) := by omega
      rw [this]

theorem charsLeadWith_append (l t : List Char) : charsLeadWith l (l ++ t) = true := by
  induction l with
  | nil => rfl
  | cons c rest ih => simp [charsLeadWith, ih]

theorem charsContain_mid (l pre post : List Char) :
    charsContain l (pre ++ (l ++ post)) = true := by
  induction pre with
  | nil =>
    cases l with
    | nil => cases post <;> simp [charsContain, charsLeadWith]
    | cons a as => simp [charsContain, charsLeadWith, charsLeadWith_append]
  | cons c rest ih =>
    simp [charsContain, ih]

/-- Claim C2: every invocation of the GET /health handler, on each transport
that exposes one (HTTP's `health_check_handler`, SSE's `sse_health_check`),
and whatever the clock reads, returns HTTP status 200 with a JSON body whose
"status" field is "healthy". -/
theorem health_endpoint_always_healthy (now : String) :
    (health_check_handler now).status = 200
    ∧ (health_check_handler now).body.lookup "status" = some (.str "healthy")
    ∧ (sse_health_check now).status = 200
    ∧ (sse_health_check now).body.lookup "status" = some (.str "healthy") :=
  ⟨rfl, rfl, rfl, rfl⟩

/-- Claim C5: the five registered tool names are pairwise distinct (the
registry, built once by the tool_router macro at `AuroraServer::new`, contains
no duplicate name), and there are exactly five of them. -/
theorem registered_tool_names_nodup :
    registeredToolNames.Nodup ∧ registeredToolNames.length = 5 := by
  constructor
  · decide
  · rfl

/-- Claim C10: for every clock reading, the health_check tool's JSON reports
"uptime_seconds" = 0 and "tools_available" = 4, even though five tools are
registered. -/
theorem health_check_static_fields (now : String) :
    health_check now = CallToolResult.success [renderJson (healthCheckJson now)]
    ∧ (healthCheckJson now).lookup "uptime_seconds" = some (.num 0)
    ∧ (healthCheckJson now).lookup "tools_available" = some (.num 4)
    ∧ registeredToolNames.length = 5 :=
  ⟨rfl, rfl, rfl, rfl⟩

/-- Claim C6: main exits with code 0 on a graceful run (stdio service runs to
completion, or the HTTP listener binds and serves until shutdown), and with a
non-zero code when the host:port address fails to parse, the bind fails, or
the stdio service fails to start. -/
theorem main_exit_codes (env : NetEnv) :
    (env.stdioServeOk = true → env.stdioWaitOk = true → mainExitCode .stdio env = 0)
    ∧ (env.addrParses = true → env.bindSucceeds = true → mainExitCode .http env = 0)
    ∧ (env.addrParses = true → env.bindSucceeds = false → mainExitCode .http env ≠ 0)
    ∧ (env.addrParses = false → mainExitCode .http env ≠ 0)
    ∧ (env.stdioServeOk = false → mainExitCode .stdio env ≠ 0) := by
  refine ⟨?_, ?_, ?_, ?_, ?_⟩
  · intro h1 h2; simp [mainExitCode, h1, h2]
  · intro h1 h2; simp [mainExitCode, h1, h2]
  · intro h1 h2; simp [mainExitCode, h1, h2]
  · intro h1; simp [mainExitCode, h1]
  · intro h1; simp [mainExitCode, h1]

/-- Witness for C6 at a concrete environment: an all-successful stdio run
exits 0. -/
theorem main_exit_codes_witness :
    mainExitCode .stdio ⟨true, true, true, true⟩ = 0 :=
  (main_exit_codes ⟨true, true, true, true⟩).1 rfl rfl

/-- Claim C8: batch_greeting on an empty names list returns an error result
whose text is exactly "Error: At least one name must be provided", and on
every non-empty names list returns a non-error result. -/
theorem batch_greeting_empty_names (now : String) (r : BatchGreetingRequest) :
    (r.names = [] → batch_greeting now r = CallToolResult.error ["Error: At least one name must be provided"])
    ∧ (r.names ≠ [] → (batch_greeting now r).isError = false) := by
  constructor
  · intro h
    simp [batch_greeting, h]
  · intro h
    simp [batch_greeting, h, CallToolResult.success, CallToolResult.error]

/-- Witness for C8 at concrete inputs: the empty-names request yields the
exact error result. -/
theorem batch_greeting_empty_names_witness :
    batch_greeting "t" ⟨[], none, none, none⟩ = CallToolResult.error ["Error: At least one name must be provided"] :=
  (batch_greeting_empty_names "t" ⟨[], none, none, none⟩).1 rfl

/-- Counterexample to claim C3 as stated: the health_check tool is not a
function of its arguments alone — two invocations with identical (empty)
arguments but different wall-clock readings return different results. -/
theorem health_check_not_pure :
    health_check "2025-01-01T00:00:00+00:00" ≠ health_check "2025-01-01T00:00:01+00:00" := by
  decide

/-- Claim C3 (amended): hello_world, get_usa_president, get_server_info and
batch_greeting are pure — their results are unchanged under any change of the
ambient clock, so equal arguments give equal results — while health_check is
deterministic only once the clock reading is fixed. -/
theorem tools_pure_except_health_check :
    (∀ t₁ t₂ : String, hello_world t₁ = hello_world t₂)
    ∧ (∀ t₁ t₂ : String, get_usa_president t₁ = get_usa_president t₂)
    ∧ (∀ t₁ t₂ : String, get_server_info t₁ = get_server_info t₂)
    ∧ (∀ (t₁ t₂ : String) (r : BatchGreetingRequest), batch_greeting t₁ r = batch_greeting t₂ r)
    ∧ (∀ t₁ t₂ : String, t₁ = t₂ → health_check t₁ = health_check t₂) :=
  ⟨fun _ _ => rfl, fun _ _ => rfl, fun _ _ => rfl, fun _ _ _ => rfl,
   fun _ _ h => by rw [h]⟩

/-- Witness for the amended C3 at a concrete clock reading. -/
theorem tools_pure_except_health_check_witness :
    health_check "2025-01-01T00:00:00+00:00" = health_check "2025-01-01T00:00:00+00:00" :=
  tools_pure_except_health_check.2.2.2.2 "2025-01-01T00:00:00+00:00" "2025-01-01T00:00:00+00:00" rfl

/-- Claim C9: on a non-empty names list batch_greeting succeeds; it produces
exactly names.length greetings; the i-th greeting is (optionally) the 1-based
number "i+1. ", then the prefix, then ", ", then names[i] unchanged, then "!";
absent optional fields default to prefix "Hello", include_numbers false,
as_json false (the defaults appear below as `getD`); with as_json the content
is the rendered JSON object, whose "count" field equals names.length. -/
theorem batch_greeting_success_shape (now : String) (r : BatchGreetingRequest) (h : r.names ≠ []) :
    (batch_greeting now r).isError = false
    ∧ (batchGreetingLines (r.pfx.getD "Hello") (r.include_numbers.getD false) 0 r.names).length
        = r.names.length
    ∧ (∀ i, i < r.names.length →
        (batchGreetingLines (r.pfx.getD "Hello") (r.include_numbers.getD false) 0 r.names).getD i ""
          = (if r.include_numbers.getD false
              then toString (i + 1) ++ ". " ++ r.pfx.getD "Hello"
              else r.pfx.getD "Hello")
            ++ ", " ++ r.names.getD i "" ++ "!")
    ∧ (r.as_json.getD false = false →
        (batch_greeting now r).content
          = [String.intercalate "\n"
              (batchGreetingLines (r.pfx.getD "Hello") (r.include_numbers.getD false) 0 r.names)])
    ∧ (r.as_json.getD false = true →
        (batch_greeting now r).content
          = [renderJson (batchGreetingJson
              (batchGreetingLines (r.pfx.getD "Hello") (r.include_numbers.getD false) 0 r.names)
              (r.pfx.getD "Hello") (r.include_numbers.getD false))]
        ∧ (batchGreetingJson
            (batchGreetingLines (r.pfx.getD "Hello") (r.include_numbers.getD false) 0 r.names)
            (r.pfx.getD "Hello") (r.include_numbers.getD false)).lookup "count"
          = some (.num r.names.length)) := by
  refine ⟨?_, batchGreetingLines_length _ _ _ _, ?_, ?_, ?_⟩
  · simp [batch_greeting, h, CallToolResult.success]
  · intro i hi
    have := batchGreetingLines_getD (r.pfx.getD "Hello") (r.include_numbers.getD false) r.names 0 i hi
    simpa [greetingLine] using this
  · intro hj
    simp [batch_greeting, h, hj, CallToolResult.success]
  · intro hj
    constructor
    · simp [batch_greeting, h, hj, CallToolResult.success]
    · simp [batchGreetingJson, Json.lookup, List.lookup, batchGreetingLines_length]

/-- Witness for C9 at a concrete request exercising all options. -/
theorem batch_greeting_success_shape_witness :
    (batch_greeting "t" ⟨["Alice", "Bob"], some "Hi", some true, some true⟩).isError = false :=
  (batch_greeting_success_shape "t" ⟨["Alice", "Bob"], some "Hi", some true, some true⟩
    (by decide)).1

/-- Counterexample to claim C4 as stated: a batch_greeting request whose
required field "names" is present at the wrong runtime type fails validation
with an error that does not name the offending field — serde's invalid-type
message describes only the value and the expected type. -/
theorem wrong_type_error_field_unnamed :
    deserializeBGR (.obj [("names", .num 3)]) = .error (.invalidType "integer `3`" "a sequence")
    ∧ strContainsB (DeErr.message (.invalidType "integer `3`" "a sequence")) "names" = false := by
  constructor
  · rfl
  · decide

/-- Claim C4 (amended): on any validation failure the tool handler is not
invoked (the dispatch returns the error directly) and on success the handler
runs on the decoded request; a missing required field fails with an error
naming that exact field (so for a request with no "names" entry whose other
entries are well-typed, e.g. the empty object); a wrong-typed field also fails
before the handler, but its invalid-type error does not name the field. -/
theorem validation_failure_shape (now : String) (args : Json) (e : DeErr) :
    (deserializeBGR args = .error e → callBatchGreeting now args = .error e)
    ∧ (∀ r, deserializeBGR args = .ok r → callBatchGreeting now args = .ok (batch_greeting now r))
    ∧ (∀ n : String, strContainsB (DeErr.message (.missingField n)) n = true)
    ∧ deserializeBGR (.obj []) = .error (.missingField "names")
    ∧ deserializeBGR (.obj [("names", .num 3)]) = .error (.invalidType "integer `3`" "a sequence")
    ∧ strContainsB (DeErr.message (.invalidType "integer `3`" "a sequence")) "names" = false := by
  refine ⟨?_, ?_, ?_, rfl, rfl, by decide⟩
  · intro h
    simp [callBatchGreeting, h]
  · intro r h
    simp [callBatchGreeting, h]
  · intro n
    show charsContain n.data ("missing field `" ++ n ++ "`").data = true
    have hd : ("missing field `" ++ n ++ "`").data
        = "missing field `".data ++ (n.data ++ "`".data) := by
      simp [String.data_append]
    rw [hd]
    exact charsContain_mid n.data "missing field `".data "`".data

/-- Witness for the amended C4 at concrete inputs: the empty object is
rejected with the missing-field error and the handler is not invoked. -/
theorem validation_failure_shape_witness :
    callBatchGreeting "t" (.obj []) = .error (.missingField "names") :=
  (validation_failure_shape "t" (.obj []) (.missingField "names")).1 rfl

/-- Counterexample to claim C1 as stated: the command line
`serve --transport stdio` does not parse (the CLI declares no `serve`
subcommand, so `serve` is an unexpected argument), and `--transport sse`
does not parse either (the TransportMode ValueEnum has no Sse variant). -/
theorem cli_serve_and_sse_rejected :
    parseArgs ["serve", "--transport", "stdio"] = none
    ∧ parseArgs ["--transport", "sse"] = none := by
  constructor
  · rfl
  · rfl

/-- Claim C1 (amended): the CLI (with no subcommand word) accepts exactly the
two transport modes stdio and http — parsing `--transport stdio` and
`--transport http` succeeds and selects the corresponding transport, stdio
being the default — while `sse` is rejected, as is a `serve` token. -/
theorem cli_transport_modes :
    parseArgs ["--transport", "stdio"] = some ⟨.stdio, "127.0.0.1", 3000, false, "info"⟩
    ∧ parseArgs ["--transport", "http"] = some ⟨.http, "127.0.0.1", 3000, false, "info"⟩
    ∧ parseArgs [] = some ⟨.stdio, "127.0.0.1", 3000, false, "info"⟩
    ∧ parseArgs ["--transport", "sse"] = none
    ∧ parseArgs ["serve", "--transport", "stdio"] = none := by
  refine ⟨rfl, rfl, rfl, rfl, rfl⟩

/-- Counterexample to claim C7 as stated: a command line containing
`--request-timeout 30` fails to parse — src/main.rs `Args` declares no such
option, and clap rejects unknown arguments. -/
theorem cli_request_timeout_rejected :
    parseArgs ["--transport", "http", "--request-timeout", "30"] = none := by
  rfl

/-- Claim C7 (amended): the CLI accepts neither --request-timeout nor
--idle-timeout (parsing a command line containing either fails); the options
it does accept are --transport, --host, --port, --cors and --log-level, and a
command line using all of them parses successfully. -/
theorem cli_timeout_flags_absent :
    parseArgs ["--request-timeout", "30"] = none
    ∧ parseArgs ["--idle-timeout", "60"] = none
    ∧ parseArgs ["--transport", "http", "--host", "0.0.0.0", "--port", "8080", "--cors", "--log-level", "debug"]
        = some ⟨.http, "0.0.0.0", 8080, true, "debug"⟩ := by
  refine ⟨rfl, rfl, ?_⟩
  decide
